import Mathlib

/-!
# Verification of the mcp-shopify tool dispatch and query-composition engine

Shallow embedding of `src/index.ts` (the `CallToolRequestSchema` handler and
its nine operation cases).  JavaScript values are modelled by `JSValue`
(numbers as rationals; IEEE NaN and non-integer float rendering are outside
the model and never exercised by the theorems).  The upstream GraphQL client
(`client.query`) is an injected executor `ComposedRequest → Except String JSValue`
returning `response.body` or throwing.  The ambient clock (`new Date()`) is an
explicit epoch-millisecond parameter; `Date.prototype.setDate` arithmetic is
modelled as UTC day arithmetic (no DST, as on a UTC host).
-/

namespace McpShopify

/-- A JSON-compatible JavaScript value, plus `undefined`.  Object fields keep
insertion order, as JS objects do for the string keys this program uses. -/
inductive JSValue where
  | undefined
  | null
  | bool (b : Bool)
  | num (q : ℚ)
  | str (s : String)
  | arr (elems : List JSValue)
  | obj (fields : List (String × JSValue))
  deriving Repr

namespace JSValue

/-- JavaScript truthiness.  Falsy values: `undefined`, `null`, `false`, `0`,
`""` (NaN is not modelled). -/
def truthy : JSValue → Bool
  | .undefined => false
  | .null => false
  | .bool b => b
  | .num q => q != 0
  | .str s => s != ""
  | .arr _ => true
  | .obj _ => true

/-- `a || b`: the left operand when truthy, otherwise the right. -/
def orElse (a b : JSValue) : JSValue :=
  if a.truthy then a else b

/-- First binding of a key in an insertion-ordered field list. -/
def lookupField : List (String × JSValue) → String → Option JSValue
  | [], _ => none
  | (k, v) :: rest, key => if k = key then some v else lookupField rest key

/-- Optional-chained property access `v?.k`: `undefined` on `undefined`/`null`
receivers and on missing keys; used for `args?.x` and `x?.y` in the source. -/
def getOpt (v : JSValue) (key : String) : JSValue :=
  match v with
  | .obj fields => (lookupField fields key).getD .undefined
  | _ => .undefined

/-- Plain property access `v.k`: throws a TypeError on `undefined`/`null`
receivers (caught by the dispatcher's catch block), yields the member or
`undefined` otherwise. -/
def get (v : JSValue) (key : String) : Except String JSValue :=
  match v with
  | .undefined => .error ("Cannot read properties of undefined (reading '" ++ key ++ "')")
  | .null => .error ("Cannot read properties of null (reading '" ++ key ++ "')")
  | .obj fields => .ok ((lookupField fields key).getD .undefined)
  | _ => .ok .undefined

/-- `v.forEach`/`v.reduce` receiver: the element list when `v` is an array,
a TypeError otherwise. -/
def asArray (v : JSValue) : Except String (List JSValue) :=
  match v with
  | .arr elems => .ok elems
  | _ => .error "value is not an array"

end JSValue

/-- Digits of a string prefix: accumulated value and count of digits consumed. -/
def parseDigits : List Char → ℕ → ℕ → ℕ × ℕ × List Char
  | c :: rest, acc, n =>
    if c.isDigit then parseDigits rest (acc * 10 + (c.toNat - '0'.toNat)) (n + 1)
    else (acc, n, c :: rest)
  | [], acc, n => (acc, n, [])

/-- `parseFloat` on a decimal string: optional sign, integer digits, optional
fraction; trailing characters are ignored, as `parseFloat` does.  A string
with no leading digits yields 0 (the NaN case, never exercised here). -/
def parseDecimal (s : String) : ℚ :=
  let cs := s.toList
  let (neg, cs) : Bool × List Char :=
    match cs with
    | c :: rest => if c = '-' then (true, rest) else if c = '+' then (false, rest) else (false, cs)
    | [] => (false, [])
  let (intPart, _, cs) := parseDigits cs 0 0
  let mag : ℚ :=
    match cs with
    | c :: rest =>
      if c = '.' then
        let (fracPart, fracLen, _) := parseDigits rest 0 0
        (intPart : ℚ) + (fracPart : ℚ) / (10 : ℚ) ^ fracLen
      else (intPart : ℚ)
    | [] => (intPart : ℚ)
  if neg then -mag else mag

/-- `parseFloat(x)` where `x` is already a JS value: strings are parsed,
numbers pass through; other inputs are the unexercised NaN case, modelled
as 0. -/
def jsParseFloat (v : JSValue) : ℚ :=
  match v with
  | .str s => parseDecimal s
  | .num q => q
  | _ => 0

/-- Rendering of a JS number.  The program's serialized numbers are
integer-valued or finite decimals; JS shortest-round-trip float rendering is
not modelled beyond those. -/
def renderNum (q : ℚ) : String :=
  if q.den = 1 then toString q.num
  else toString q.num ++ "/" ++ toString q.den

/-- JSON string escaping for the characters this program can emit. -/
def escapeChar (c : Char) : String :=
  if c = '"' then "\\\""
  else if c = '\\' then "\\\\"
  else if c = '\n' then "\\n"
  else if c = '\t' then "\\t"
  else if c = '\r' then "\\r"
  else String.singleton c

def escapeString (s : String) : String :=
  String.join (s.toList.map escapeChar)

def quoteString (s : String) : String :=
  "\"" ++ escapeString s ++ "\""

/-- Does a field list still hold a member `JSON.stringify` will keep
(one whose value is not `undefined`)? -/
def anyDefined : List (String × JSValue) → Bool
  | [] => false
  | (_, .undefined) :: rest => anyDefined rest
  | _ :: _ => true

/- `JSON.stringify(v)` (compact form, no spacing).  Object members whose
value is `undefined` are dropped, as `JSON.stringify` does. -/
mutual

def stringify : JSValue → String
  | .undefined => "null"
  | .null => "null"
  | .bool b => if b then "true" else "false"
  | .num q => renderNum q
  | .str s => quoteString s
  | .arr elems => "[" ++ stringifyElems elems ++ "]"
  | .obj fields => "\x7b" ++ stringifyFields fields ++ "\x7d"

def stringifyElems : List JSValue → String
  | [] => ""
  | [v] => stringify v
  | v :: rest => stringify v ++ "," ++ stringifyElems rest

def stringifyFields : List (String × JSValue) → String
  | [] => ""
  | (_, .undefined) :: rest => stringifyFields rest
  | (k, v) :: rest =>
    quoteString k ++ ":" ++ stringify v ++
      (if anyDefined rest then "," else "") ++ stringifyFields rest

end

def indentStr (depth : ℕ) : String :=
  String.join (List.replicate depth "  ")

/- `JSON.stringify(v, null, 2)`: the pretty-printed form the source uses in
every success envelope. -/
mutual

def stringify2 : JSValue → ℕ → String
  | .undefined, _ => "null"
  | .null, _ => "null"
  | .bool b, _ => if b then "true" else "false"
  | .num q, _ => renderNum q
  | .str s, _ => quoteString s
  | .arr elems, depth =>
    if elems.isEmpty then "[]"
    else "[\n" ++ stringify2Elems elems (depth + 1) ++ "\n" ++ indentStr depth ++ "]"
  | .obj fields, depth =>
    if anyDefined fields then
      "\x7b\n" ++ stringify2Fields fields (depth + 1) ++ "\n" ++ indentStr depth ++ "\x7d"
    else "\x7b\x7d"

def stringify2Elems : List JSValue → ℕ → String
  | [], _ => ""
  | [v], depth => indentStr depth ++ stringify2 v depth
  | v :: rest, depth => indentStr depth ++ stringify2 v depth ++ ",\n" ++ stringify2Elems rest depth

def stringify2Fields : List (String × JSValue) → ℕ → String
  | [], _ => ""
  | (_, .undefined) :: rest, depth => stringify2Fields rest depth
  | (k, v) :: rest, depth =>
    indentStr depth ++ quoteString k ++ ": " ++ stringify2 v depth ++
      (if anyDefined rest then ",\n" else "") ++ stringify2Fields rest depth

end

/-- `JSON.stringify(v, null, 2)` at top level. -/
def stringifyPretty (v : JSValue) : String := stringify2 v 0

/-! ### Clock and ISO-8601 rendering

`new Date()` followed by `setDate(getDate() - days)` and `toISOString()`.
The clock is an epoch-millisecond count; subtracting `days` calendar days is
`days * 86400000` milliseconds on a UTC host.  Only post-1970 instants are
modelled (the only ones a running server observes). -/

def padNum (width : ℕ) (n : ℕ) : String :=
  let s := toString n
  String.join (List.replicate (width - s.length) "0") ++ s

/-- Civil date from days since 1970-01-01 (proleptic Gregorian),
for non-negative day counts. -/
def civilFromDays (z : ℕ) : ℕ × ℕ × ℕ :=
  let z' := z + 719468
  let era := z' / 146097
  let doe := z' % 146097
  let yoe := (doe - doe / 1460 + doe / 36524 - doe / 146096) / 365
  let y := yoe + era * 400
  let doy := doe - (365 * yoe + yoe / 4 - yoe / 100)
  let mp := (5 * doy + 2) / 153
  let d := doy - (153 * mp + 2) / 5 + 1
  let m := if mp < 10 then mp + 3 else mp - 9
  (if m ≤ 2 then y + 1 else y, m, d)

/-- `Date.prototype.toISOString` for a non-negative epoch-millisecond count:
`YYYY-MM-DDTHH:mm:ss.sssZ`. -/
def toISOString (ms : ℕ) : String :=
  let days := ms / 86400000
  let msOfDay := ms % 86400000
  let (y, m, d) := civilFromDays days
  padNum 4 y ++ "-" ++ padNum 2 m ++ "-" ++ padNum 2 d ++ "T" ++
    padNum 2 (msOfDay / 3600000) ++ ":" ++ padNum 2 (msOfDay % 3600000 / 60000) ++ ":" ++
    padNum 2 (msOfDay % 60000 / 1000) ++ "." ++ padNum 3 (msOfDay % 1000) ++ "Z"

/-- `ToIntegerOrInfinity` truncation applied by `setDate` to a fractional
day count. -/
def jsTruncate (q : ℚ) : ℤ :=
  if q < 0 then ⌈q⌉ else ⌊q⌋

/-- `startDate = new Date(); startDate.setDate(startDate.getDate() - days)`:
the clock moved back `days` days, in epoch milliseconds.  A window reaching
before 1970 is clamped at 0 (never exercised). -/
def minusDays (nowMs : ℕ) (days : ℚ) : ℕ :=
  (((nowMs : ℤ) - jsTruncate days * 86400000).toNat)

/-! ### Further JavaScript coercions the handler uses -/

/-- Template-literal / property-key string coercion.  Array and object
coercions are approximated (never exercised: interpolated values are strings
per the input schemas). -/
def jsToString : JSValue → String
  | .undefined => "undefined"
  | .null => "null"
  | .bool b => if b then "true" else "false"
  | .num q => renderNum q
  | .str s => s
  | .arr _ => ""
  | .obj _ => "[object Object]"

/-- Numeric coercion for values used in arithmetic/`Math.min`.  The input
schemas declare these parameters as numbers; coercion of other shapes
(producing NaN or string parses) is outside the model. -/
def asNumber : JSValue → ℚ
  | .num q => q
  | _ => 0

/-- `v === "lit"` for a string literal: true exactly when `v` is that
string. -/
def strictEqStr (v : JSValue) (lit : String) : Bool :=
  match v with
  | .str s => s = lit
  | _ => false

def isUndefined : JSValue → Bool
  | .undefined => true
  | _ => false

/- Structural equality test, agreeing with JS `===` / SameValueZero on the
primitive values (strings, numbers, booleans, null) this program compares;
reference equality of distinct objects is not modelled. -/
mutual

def eqb : JSValue → JSValue → Bool
  | .undefined, .undefined => true
  | .null, .null => true
  | .bool a, .bool b => a = b
  | .num a, .num b => a = b
  | .str a, .str b => a = b
  | .arr a, .arr b => eqbList a b
  | .obj a, .obj b => eqbFields a b
  | _, _ => false

def eqbList : List JSValue → List JSValue → Bool
  | [], [] => true
  | a :: as', b :: bs => eqb a b && eqbList as' bs
  | _, _ => false

def eqbFields : List (String × JSValue) → List (String × JSValue) → Bool
  | [], [] => true
  | (ka, va) :: as', (kb, vb) :: bs => ka = kb && eqb va vb && eqbFields as' bs
  | _, _ => false

end

/-- `Set.prototype.add`: insertion-ordered, no duplicates
(SameValueZero membership). -/
def setAdd (s : List JSValue) (v : JSValue) : List JSValue :=
  if s.any (fun w => eqb w v) then s else s ++ [v]

/-! ### Requests, results and the executor -/

/-- The argument object of one `client.query({ data: { query, variables } })`
call; `variables` is `undefined` when the call passes none. -/
structure ComposedRequest where
  query : String
  vars : JSValue
  deriving Repr

/-- The injected upstream GraphQL client: returns `response.body` or
throws. -/
def Executor := ComposedRequest → Except String JSValue

/-- One `{ type: "text", text }` content element of a tool result. -/
structure ContentItem where
  type : String
  text : String
  deriving Repr, DecidableEq

/-- The envelope returned to the MCP caller.  `isError` is `none` when the
source's return object carries no `isError` member (every success return)
and `some true` in the catch block. -/
structure ToolResult where
  content : List ContentItem
  isError : Option Bool
  deriving Repr, DecidableEq

/-! ### Query documents

The GraphQL document texts of each case, reproduced with normalized
indentation (no claim inspects their whitespace). -/

def getOrdersQuery : String :=
  "query getOrders($first: Int!, $query: String) { orders(first: $first, query: $query) { edges { node { id name createdAt totalPriceSet { shopMoney { amount currencyCode } } financialStatus fulfillmentStatus lineItems(first: 10) { edges { node { title quantity originalUnitPriceSet { shopMoney { amount currencyCode } } } } } customer { email displayName } } } } }"

def getFinancialSummaryQuery : String :=
  "query getFinancialSummary($query: String) { orders(first: 250, query: $query) { edges { node { id createdAt totalPriceSet { shopMoney { amount currencyCode } } financialStatus } } } }"

def getTransactionsQuery : String :=
  "query getTransactions($id: ID!) { order(id: $id) { id name transactions { id kind status amount gateway createdAt } } }"

def getInventoryLevelsQuery : String :=
  "query getInventoryLevels($first: Int!, $locationId: ID) { inventoryItems(first: $first) { edges { node { id sku tracked inventoryLevels(first: 10, locationId: $locationId) { edges { node { available location { id name } } } } variant { displayName price } } } } }"

def getProductsQuery : String :=
  "query getProducts($first: Int!, $query: String) { products(first: $first, query: $query) { edges { node { id title status totalInventory variants(first: 10) { edges { node { id title price sku inventoryQuantity } } } } } } }"

def inventorySetQuantitiesMutation : String :=
  "mutation inventorySetQuantities($input: InventorySetQuantitiesInput!) { inventorySetQuantities(input: $input) { inventoryAdjustmentGroup { reason changes { name delta } } userErrors { field message } } }"

def storeProductsQuery : String :=
  "query getProducts { products(first: 250) { edges { node { id } } } }"

def storeOrdersQuery : String :=
  "query getOrders { orders(first: 1) { edges { node { id } } } }"

def storeRecentOrdersQuery : String :=
  "query getRecentOrders { orders(first: 100) { edges { node { totalPriceSet { shopMoney { amount currencyCode } } financialStatus } } } }"

def getSalesSummaryQuery : String :=
  "query getSalesSummary($query: String) { orders(first: 250, query: $query) { edges { node { id createdAt totalPriceSet { shopMoney { amount currencyCode } } lineItems(first: 50) { edges { node { title quantity originalUnitPriceSet { shopMoney { amount } } product { id title } } } } customer { id email } } } } }"

def productAnalyticsProductQuery : String :=
  "query getProduct($id: ID!) { product(id: $id) { id title totalInventory variants(first: 10) { edges { node { id title price inventoryQuantity } } } } }"

def productAnalyticsOrdersQuery : String :=
  "query getOrdersForProduct { orders(first: 250) { edges { node { createdAt lineItems(first: 50) { edges { node { product { id } quantity originalUnitPriceSet { shopMoney { amount } } } } } } } } }"

/-! ### Shared navigation and aggregation helpers -/

open JSValue in
/-- `edge.node.totalPriceSet.shopMoney.amount`, parsed: the body of every
revenue `reduce` in the source. -/
def orderAmount (edge : JSValue) : Except String ℚ := do
  let node ← edge.get "node"
  let tps ← node.get "totalPriceSet"
  let sm ← tps.get "shopMoney"
  let amt ← sm.get "amount"
  pure (jsParseFloat amt)

/-- `orders.reduce((sum, edge) => sum + parseFloat(edge.node.totalPriceSet.shopMoney.amount), 0)`. -/
def sumAmounts (orders : List JSValue) : Except String ℚ :=
  orders.foldlM (fun sum e => do pure (sum + (← orderAmount e))) 0

open JSValue in
/-- `orders[0]?.node.totalPriceSet.shopMoney.currencyCode || "USD"`. -/
def firstCurrency (orders : List JSValue) : Except String JSValue :=
  match orders.head? with
  | none => pure (.str "USD")
  | some e => do
      let node ← e.get "node"
      let tps ← node.get "totalPriceSet"
      let sm ← tps.get "shopMoney"
      let cc ← sm.get "currencyCode"
      pure (cc.orElse (.str "USD"))

/-- `acc[status] = (acc[status] || 0) + 1` on an insertion-ordered object. -/
def bump : List (String × ℚ) → String → List (String × ℚ)
  | [], key => [(key, 1)]
  | (k, n) :: rest, key =>
    if k = key then (k, n + 1) :: rest else (k, n) :: bump rest key

open JSValue in
/-- The `by_status` reduce of `get_financial_summary`. -/
def byStatus (orders : List JSValue) : Except String (List (String × ℚ)) :=
  orders.foldlM
    (fun acc e => do
      let node ← e.get "node"
      let st ← node.get "financialStatus"
      pure (bump acc (jsToString st)))
    []

/-! ### The nine operation cases -/

open JSValue

/-- `case "get_orders"`: the composed query and variables. -/
def getOrdersRequest (args : JSValue) : ComposedRequest :=
  let status := (args.getOpt "status").orElse (.str "any")
  let financial_status := args.getOpt "financial_status"
  let limit := min (asNumber ((args.getOpt "limit").orElse (.num 50))) 250
  let queryString :=
    if strictEqStr status "any" then ""
    else "status:" ++ jsToString status
  let queryString :=
    if financial_status.truthy && !strictEqStr financial_status "any" then
      (if queryString ≠ "" then queryString ++ " AND " else queryString) ++
        "financial_status:" ++ jsToString financial_status
    else queryString
  { query := getOrdersQuery,
    vars := .obj [("first", .num limit),
                       ("query", (JSValue.str queryString).orElse .undefined)] }

def handleGetOrders (args : JSValue) (exec : Executor) : Except String JSValue :=
  exec (getOrdersRequest args)

/-- `case "get_financial_summary"`: the composed query and variables. -/
def getFinancialSummaryRequest (args : JSValue) (nowMs : ℕ) : ComposedRequest :=
  let days := asNumber ((args.getOpt "days").orElse (.num 30))
  let startDate := minusDays nowMs days
  { query := getFinancialSummaryQuery,
    vars := .obj [("query", .str ("created_at:>='" ++ toISOString startDate ++ "'"))] }

def handleGetFinancialSummary (args : JSValue) (nowMs : ℕ) (exec : Executor) :
    Except String JSValue := do
  let days := asNumber ((args.getOpt "days").orElse (.num 30))
  let body ← exec (getFinancialSummaryRequest args nowMs)
  let orders ← (← (← (← body.get "data").get "orders").get "edges").asArray
  let totalRevenue ← sumAmounts orders
  let currency ← firstCurrency orders
  let avg ← if orders.length > 0 then do
      pure ((← sumAmounts orders) / orders.length)
    else pure 0
  let statusCounts ← byStatus orders
  pure (.obj [
    ("period_days", .num days),
    ("total_orders", .num orders.length),
    ("total_revenue", .num totalRevenue),
    ("currency", currency),
    ("average_order_value", .num avg),
    ("by_status", .obj (statusCounts.map (fun p => (p.1, JSValue.num p.2))))])

/-- `case "get_transactions"`. -/
def handleGetTransactions (args : JSValue) (exec : Executor) : Except String JSValue := do
  let orderId := args.getOpt "order_id"
  if !orderId.truthy then
    .error "order_id is required"
  else
    exec { query := getTransactionsQuery, vars := .obj [("id", orderId)] }

/-- `case "get_inventory_levels"`. -/
def getInventoryLevelsRequest (args : JSValue) : ComposedRequest :=
  let locationId := args.getOpt "location_id"
  let limit := min (asNumber ((args.getOpt "limit").orElse (.num 50))) 250
  { query := getInventoryLevelsQuery,
    vars := .obj [("first", .num limit), ("locationId", locationId.orElse .undefined)] }

def handleGetInventoryLevels (args : JSValue) (exec : Executor) : Except String JSValue :=
  exec (getInventoryLevelsRequest args)

/-- `case "get_products"`. -/
def getProductsRequest (args : JSValue) : ComposedRequest :=
  let status := (args.getOpt "status").orElse (.str "active")
  let limit := min (asNumber ((args.getOpt "limit").orElse (.num 50))) 250
  { query := getProductsQuery,
    vars := .obj [("first", .num limit), ("query", .str ("status:" ++ jsToString status))] }

def handleGetProducts (args : JSValue) (exec : Executor) : Except String JSValue :=
  exec (getProductsRequest args)

/-- `case "update_inventory"`: the composed mutation for given (raw) argument
values. -/
def updateInventoryRequest (inventoryItemId locationId available : JSValue) : ComposedRequest :=
  { query := inventorySetQuantitiesMutation,
    vars := .obj [("input", .obj [
      ("reason", .str "correction"),
      ("quantities", .arr [.obj [
        ("inventoryItemId", inventoryItemId),
        ("locationId", locationId),
        ("name", .str "available"),
        ("quantity", available)]])])] }

def handleUpdateInventory (args : JSValue) (exec : Executor) : Except String JSValue := do
  let inventoryItemId := args.getOpt "inventory_item_id"
  let locationId := args.getOpt "location_id"
  let available := args.getOpt "available"
  if !inventoryItemId.truthy || !locationId.truthy || isUndefined available then
    .error "inventory_item_id, location_id, and available are required"
  else
    exec (updateInventoryRequest inventoryItemId locationId available)

/-- `case "get_store_summary"`. -/
def handleGetStoreSummary (shopName : String) (exec : Executor) : Except String JSValue := do
  let productsBody ← exec { query := storeProductsQuery, vars := .undefined }
  let _ordersBody ← exec { query := storeOrdersQuery, vars := .undefined }
  let recentBody ← exec { query := storeRecentOrdersQuery, vars := .undefined }
  let orders ← (← (← (← recentBody.get "data").get "orders").get "edges").asArray
  let products ← (← (← (← productsBody.get "data").get "products").get "edges").asArray
  let totalRevenue ← sumAmounts orders
  let currency ← firstCurrency orders
  pure (.obj [
    ("store_name", .str shopName),
    ("products", .obj [("total", .num products.length)]),
    ("orders", .obj [
      ("recent_count", .num orders.length),
      ("total_revenue", .num totalRevenue),
      ("currency", currency)])])

/-- One `productSales` entry: `{ title, quantity, revenue }`. -/
structure ProductEntry where
  title : JSValue
  quantity : ℚ
  revenue : ℚ
  deriving Repr

/-- `if (!productSales[productId]) productSales[productId] = {title, quantity: 0, revenue: 0};
productSales[productId].quantity += quantity; productSales[productId].revenue += revenue;`
on an insertion-ordered object. -/
def accumUpdate : List (String × ProductEntry) → String → JSValue → ℚ → ℚ →
    List (String × ProductEntry)
  | [], key, title, q, r => [(key, ⟨title, q, r⟩)]
  | (k, e) :: rest, key, title, q, r =>
    if k = key then (k, { e with quantity := e.quantity + q, revenue := e.revenue + r }) :: rest
    else (k, e) :: accumUpdate rest key title q r

/-- The per-line-item body of the `get_sales_summary` `forEach`. -/
def processLineItem (ps : List (String × ProductEntry)) (lineItem : JSValue) :
    Except String (List (String × ProductEntry)) := do
  let node ← lineItem.get "node"
  let product ← node.get "product"
  let productId := jsToString ((product.getOpt "id").orElse (.str "unknown"))
  let titleFallback ← node.get "title"
  let title := (product.getOpt "title").orElse titleFallback
  let quantityV ← node.get "quantity"
  let quantity := asNumber quantityV
  let oups ← node.get "originalUnitPriceSet"
  let sm ← oups.get "shopMoney"
  let amt ← sm.get "amount"
  let revenue := quantity * jsParseFloat amt
  pure (accumUpdate ps productId title quantity revenue)

/-- The per-order body of the `get_sales_summary` `forEach`: customer-set
insertion, then the line-item loop. -/
def processOrder (st : List JSValue × List (String × ProductEntry)) (orderEdge : JSValue) :
    Except String (List JSValue × List (String × ProductEntry)) := do
  let (customers, ps) := st
  let node ← orderEdge.get "node"
  let customer ← node.get "customer"
  let cid := customer.getOpt "id"
  let customers := if cid.truthy then setAdd customers cid else customers
  let li ← node.get "lineItems"
  let edges ← li.get "edges"
  let items ← edges.asArray
  let ps ← items.foldlM processLineItem ps
  pure (customers, ps)

/-- `Object.entries(productSales).sort(([, a], [, b]) => b.revenue - a.revenue)
.slice(0, 10).map(...)`: JS `sort` is stable; the comparator orders by
descending revenue. -/
def topProducts (ps : List (String × ProductEntry)) : List JSValue :=
  ((ps.mergeSort (fun a b => b.2.revenue ≤ a.2.revenue)).take 10).map fun p =>
    .obj [("product_id", .str p.1),
          ("title", p.2.title),
          ("quantity_sold", .num p.2.quantity),
          ("revenue", .num p.2.revenue)]

/-- `case "get_sales_summary"`: the composed query and variables. -/
def getSalesSummaryRequest (args : JSValue) (nowMs : ℕ) : ComposedRequest :=
  let days := asNumber ((args.getOpt "days").orElse (.num 30))
  let startDate := minusDays nowMs days
  { query := getSalesSummaryQuery,
    vars := .obj [("query", .str ("created_at:>='" ++ toISOString startDate ++ "'"))] }

def handleGetSalesSummary (args : JSValue) (nowMs : ℕ) (exec : Executor) :
    Except String JSValue := do
  let days := asNumber ((args.getOpt "days").orElse (.num 30))
  let body ← exec (getSalesSummaryRequest args nowMs)
  let orders ← (← (← (← body.get "data").get "orders").get "edges").asArray
  let (customers, productSales) ← orders.foldlM processOrder ([], [])
  let totalRevenue ← sumAmounts orders
  let currency ← firstCurrency orders
  pure (.obj [
    ("period_days", .num days),
    ("total_orders", .num orders.length),
    ("total_revenue", .num totalRevenue),
    ("currency", currency),
    ("unique_customers", .num customers.length),
    ("average_order_value", .num (if orders.length > 0 then totalRevenue / orders.length else 0)),
    ("top_products", .arr (topProducts productSales))])

/-- The per-line-item body of the `get_product_analytics` order scan:
`if (lineItem.node.product?.id === productId) { ... }`. -/
def analyticsLine (productId : JSValue) (st : ℚ × ℚ) (lineItem : JSValue) :
    Except String (ℚ × ℚ) := do
  let (qty, rev) := st
  let node ← lineItem.get "node"
  let product ← node.get "product"
  if eqb (product.getOpt "id") productId then do
    let quantityV ← node.get "quantity"
    let quantity := asNumber quantityV
    let oups ← node.get "originalUnitPriceSet"
    let sm ← oups.get "shopMoney"
    let amt ← sm.get "amount"
    pure (qty + quantity, rev + quantity * jsParseFloat amt)
  else
    pure (qty, rev)

def analyticsOrder (productId : JSValue) (st : ℚ × ℚ) (orderEdge : JSValue) :
    Except String (ℚ × ℚ) := do
  let node ← orderEdge.get "node"
  let li ← node.get "lineItems"
  let edges ← li.get "edges"
  let items ← edges.asArray
  items.foldlM (analyticsLine productId) st

/-- `case "get_product_analytics"`. -/
def handleGetProductAnalytics (args : JSValue) (exec : Executor) : Except String JSValue := do
  let productId := args.getOpt "product_id"
  if !productId.truthy then
    .error "product_id is required"
  else do
    let productBody ← exec { query := productAnalyticsProductQuery,
                             vars := .obj [("id", productId)] }
    let ordersBody ← exec { query := productAnalyticsOrdersQuery, vars := .undefined }
    let product ← (← productBody.get "data").get "product"
    let orders ← (← (← (← ordersBody.get "data").get "orders").get "edges").asArray
    let (totalQuantitySold, totalRevenue) ← orders.foldlM (analyticsOrder productId) (0, 0)
    let pid ← product.get "id"
    let title ← product.get "title"
    let totalInventory ← product.get "totalInventory"
    let variants ← product.get "variants"
    let vedges ← variants.get "edges"
    let vlist ← vedges.asArray
    let stock := asNumber totalInventory
    pure (.obj [
      ("product", .obj [
        ("id", pid),
        ("title", title),
        ("total_inventory", totalInventory),
        ("variants_count", .num vlist.length)]),
      ("sales", .obj [
        ("total_quantity_sold", .num totalQuantitySold),
        ("total_revenue", .num totalRevenue)]),
      ("inventory", .obj [
        ("current_stock", totalInventory),
        ("turnover_rate", .num (if stock > 0 then totalQuantitySold / stock * 100 else 0))])])

/-! ### The dispatcher -/

/-- The nine catalog entries' names, in declaration order. -/
def toolNames : List String :=
  ["get_orders", "get_financial_summary", "get_transactions",
   "get_inventory_levels", "get_products", "update_inventory",
   "get_store_summary", "get_sales_summary", "get_product_analytics"]

/-- The `switch (name)` of the `CallToolRequestSchema` handler: the selected
case's result, or the `default` throw. -/
def callTool (shopName name : String) (args : JSValue) (nowMs : ℕ) (exec : Executor) :
    Except String JSValue :=
  if name = "get_orders" then handleGetOrders args exec
  else if name = "get_financial_summary" then handleGetFinancialSummary args nowMs exec
  else if name = "get_transactions" then handleGetTransactions args exec
  else if name = "get_inventory_levels" then handleGetInventoryLevels args exec
  else if name = "get_products" then handleGetProducts args exec
  else if name = "update_inventory" then handleUpdateInventory args exec
  else if name = "get_store_summary" then handleGetStoreSummary shopName exec
  else if name = "get_sales_summary" then handleGetSalesSummary args nowMs exec
  else if name = "get_product_analytics" then handleGetProductAnalytics args exec
  else .error ("Unknown tool: " ++ name)

/-- The success envelope of every case: `JSON.stringify(X, null, 2)` text and
no `isError` member. -/
def successEnvelope (v : JSValue) : ToolResult :=
  { content := [⟨"text", stringifyPretty v⟩], isError := none }

/-- The catch block: `{ content: [{ type: "text", text: "Error: " + message }],
isError: true }`. -/
def errorEnvelope (msg : String) : ToolResult :=
  { content := [⟨"text", "Error: " ++ msg⟩], isError := some true }

/-- The whole `CallToolRequestSchema` handler: the switch inside the
try/catch. -/
def dispatch (shopName name : String) (args : JSValue) (nowMs : ℕ) (exec : Executor) :
    ToolResult :=
  match callTool shopName name args nowMs exec with
  | .ok v => successEnvelope v
  | .error msg => errorEnvelope msg

/-! ### Upstream result fixtures

Well-formed pages of the shapes the GraphQL queries return, used to drive the
aggregation handlers in the theorems, together with pure recomputations of the
aggregates for the statements. -/

/-- One order of a financial-summary page. -/
structure OrderFx where
  amount : String
  currency : String
  financialStatus : String

def orderFxEdge (o : OrderFx) : JSValue :=
  .obj [("node", .obj [
    ("id", .str "gid://shopify/Order/1"),
    ("createdAt", .str "2024-01-01T00:00:00Z"),
    ("totalPriceSet", .obj [("shopMoney", .obj [
      ("amount", .str o.amount), ("currencyCode", .str o.currency)])]),
    ("financialStatus", .str o.financialStatus)])]

/-- `response.body` for a page of orders. -/
def ordersBody (edges : List JSValue) : JSValue :=
  .obj [("data", .obj [("orders", .obj [("edges", .arr edges)])])]

/-- The sum of the parsed decimal-string order amounts. -/
def totalOf (os : List OrderFx) : ℚ :=
  (os.map (fun o => parseDecimal o.amount)).sum

def statusCountsOf (os : List OrderFx) : List (String × ℚ) :=
  os.foldl (fun acc o => bump acc o.financialStatus) []

/-- One line item of a sales-summary or analytics order:
`product = some (id, title)` for a linked product, `none` for a line item
whose `product` is `null`. -/
structure LineFx where
  title : String
  quantity : ℚ
  amount : String
  product : Option (String × String)

def productVal (l : LineFx) : JSValue :=
  match l.product with
  | some p => .obj [("id", .str p.1), ("title", .str p.2)]
  | none => .null

def lineFxEdge (l : LineFx) : JSValue :=
  .obj [("node", .obj [
    ("title", .str l.title),
    ("quantity", .num l.quantity),
    ("originalUnitPriceSet", .obj [("shopMoney", .obj [("amount", .str l.amount)])]),
    ("product", productVal l)])]

/-- One order of a sales-summary page; `customerId = none` models
`"customer": null`. -/
structure SalesOrderFx where
  amount : String
  currency : String
  customerId : Option String
  lines : List LineFx

def customerVal (o : SalesOrderFx) : JSValue :=
  match o.customerId with
  | some c => .obj [("id", .str c), ("email", .str "c@example.com")]
  | none => .null

def salesOrderFxEdge (o : SalesOrderFx) : JSValue :=
  .obj [("node", .obj [
    ("id", .str "gid://shopify/Order/1"),
    ("createdAt", .str "2024-01-01T00:00:00Z"),
    ("totalPriceSet", .obj [("shopMoney", .obj [
      ("amount", .str o.amount), ("currencyCode", .str o.currency)])]),
    ("lineItems", .obj [("edges", .arr (o.lines.map lineFxEdge))]),
    ("customer", customerVal o)])]

def salesTotalOf (os : List SalesOrderFx) : ℚ :=
  (os.map (fun o => parseDecimal o.amount)).sum

/-- The `productSales` key the code computes for a line item:
`lineItem.node.product?.id || "unknown"` coerced to a property key. -/
def lineKey (l : LineFx) : String :=
  match l.product with
  | some p => if p.1 = "" then "unknown" else p.1
  | none => "unknown"

/-- The entry title the code stores:
`lineItem.node.product?.title || lineItem.node.title`. -/
def lineTitle (l : LineFx) : JSValue :=
  match l.product with
  | some p => if p.2 = "" then .str l.title else .str p.2
  | none => .str l.title

def lineRevenue (l : LineFx) : ℚ := l.quantity * parseDecimal l.amount

def lineStep (ps : List (String × ProductEntry)) (l : LineFx) :
    List (String × ProductEntry) :=
  accumUpdate ps (lineKey l) (lineTitle l) l.quantity (lineRevenue l)

def linesAccum (ls : List LineFx) (ps : List (String × ProductEntry)) :
    List (String × ProductEntry) :=
  ls.foldl lineStep ps

/-- The whole `productSales` accumulation over a page of orders. -/
def salesAccum (os : List SalesOrderFx) : List (String × ProductEntry) :=
  os.foldl (fun ps o => linesAccum o.lines ps) []

/-- All line items of the page, in encounter order. -/
def flatLines (os : List SalesOrderFx) : List LineFx :=
  (os.map SalesOrderFx.lines).flatten

/-- The customer id value the code tests: `orderEdge.node.customer?.id`. -/
def cidVal (o : SalesOrderFx) : JSValue :=
  match o.customerId with
  | some c => .str c
  | none => .undefined

/-- The `customers` set after the page: truthy ids in encounter order,
deduplicated. -/
def customersOf (os : List SalesOrderFx) : List JSValue :=
  os.foldl (fun cs o => if (cidVal o).truthy then setAdd cs (cidVal o) else cs) []

/-- First entry for a key in the insertion-ordered `productSales` object. -/
def findEntry : List (String × ProductEntry) → String → Option ProductEntry
  | [], _ => none
  | (k, e) :: rest, key => if k = key then some e else findEntry rest key

/-- Total quantity of the line items of `ls` accumulated under key `k`. -/
def qtySum (ls : List LineFx) (k : String) : ℚ :=
  ((ls.filter (fun l => lineKey l = k)).map (fun l => l.quantity)).sum

/-- Total revenue of the line items of `ls` accumulated under key `k`. -/
def revSum (ls : List LineFx) (k : String) : ℚ :=
  ((ls.filter (fun l => lineKey l = k)).map lineRevenue).sum

/-- Modelled from the spec: the claim's keying — "a mapping keyed by product
identifier, falling back to the line-item title when the line item has no
linked product".  (The code instead falls back to the fixed key
`"unknown"`.) -/
def specLineKey (l : LineFx) : String :=
  match l.product with
  | some p => p.1
  | none => l.title

/-- Modelled from the spec: the accumulation under the spec's keying. -/
def specSalesAccum (os : List SalesOrderFx) : List (String × ProductEntry) :=
  os.foldl (fun ps o => o.lines.foldl
    (fun ps l => accumUpdate ps (specLineKey l) (lineTitle l) l.quantity (lineRevenue l)) ps) []

/-- Product fixture for `get_product_analytics`:
`response.body` of the product query. -/
def productBodyFx (pid title : String) (stock : ℚ) (variants : List JSValue) : JSValue :=
  .obj [("data", .obj [("product", .obj [
    ("id", .str pid), ("title", .str title), ("totalInventory", .num stock),
    ("variants", .obj [("edges", .arr variants)])])])]

/-- One order edge of the analytics order scan (only `createdAt` and
`lineItems` are queried). -/
def analyticsOrderEdge (ls : List LineFx) : JSValue :=
  .obj [("node", .obj [
    ("createdAt", .str "2024-01-01T00:00:00Z"),
    ("lineItems", .obj [("edges", .arr (ls.map lineFxEdge))])])]

/-- Does a line item's linked product match the requested product id
(`lineItem.node.product?.id === productId`)? -/
def matchesFx (pid : String) (l : LineFx) : Bool :=
  match l.product with
  | some p => p.1 = pid
  | none => false

def soldL (pid : String) (ls : List LineFx) : ℚ :=
  ((ls.filter (matchesFx pid)).map (fun l => l.quantity)).sum

def revL (pid : String) (ls : List LineFx) : ℚ :=
  ((ls.filter (matchesFx pid)).map lineRevenue).sum

/-- Total quantity of the page's line items matching the requested product. -/
def soldOf (pid : String) (orders : List (List LineFx)) : ℚ :=
  soldL pid orders.flatten

/-- Total revenue of the page's line items matching the requested product. -/
def revOf (pid : String) (orders : List (List LineFx)) : ℚ :=
  revL pid orders.flatten

/-! ## Theorems -/

@[simp] theorem except_bind_ok {α β : Type} (a : α) (f : α → Except String β) :
    (Except.ok a : Except String α) >>= f = f a := rfl

@[simp] theorem except_bind_error {α β : Type} (e : String) (f : α → Except String β) :
    (Except.error e : Except String α) >>= f = Except.error e := rfl

@[simp] theorem except_pure {α : Type} (a : α) :
    (pure a : Except String α) = Except.ok a := rfl

@[simp] theorem except_map_ok {α β : Type} (f : α → β) (a : α) :
    f <$> (Except.ok a : Except String α) = Except.ok (f a) := rfl

@[simp] theorem except_map_error {α β : Type} (f : α → β) (e : String) :
    f <$> (Except.error e : Except String α) = Except.error e := rfl

/-- C1: `dispatch` never raises — every invocation returns either the success
envelope or the error envelope `{content: [{type: "text", text: "Error: " ++ msg}],
isError: true}` — and for every operation name outside the nine-entry catalog
the result is the error envelope whose text is exactly
`"Error: Unknown tool: <name>"`. -/
theorem dispatch_never_raises_and_unknown_tool
    (shopName name : String) (args : JSValue) (nowMs : ℕ) (exec : Executor)
    (h : name ∉ toolNames) :
    (∀ n : String,
      (∃ v, dispatch shopName n args nowMs exec =
        { content := [⟨"text", stringifyPretty v⟩], isError := none }) ∨
      (∃ m, dispatch shopName n args nowMs exec =
        { content := [⟨"text", "Error: " ++ m⟩], isError := some true })) ∧
    dispatch shopName name args nowMs exec =
      { content := [⟨"text", "Error: Unknown tool: " ++ name⟩], isError := some true } := by
  constructor
  · intro n
    unfold dispatch
    cases hc : callTool shopName n args nowMs exec with
    | ok v => exact Or.inl ⟨v, by simp [successEnvelope]⟩
    | error m => exact Or.inr ⟨m, by simp [errorEnvelope]⟩
  · simp only [toolNames, List.mem_cons, List.not_mem_nil, or_false] at h
    push_neg at h
    obtain ⟨h1, h2, h3, h4, h5, h6, h7, h8, h9⟩ := h
    have hstr : ∀ s : String, "Error: " ++ ("Unknown tool: " ++ s) = "Error: Unknown tool: " ++ s := by
      intro s
      rw [← String.append_assoc]
      exact congrArg (· ++ s) (by decide)
    simp [dispatch, callTool, errorEnvelope, h1, h2, h3, h4, h5, h6, h7, h8, h9, hstr]

/-- Witness for C1 at the unknown name `"foo"`. -/
theorem dispatch_never_raises_and_unknown_tool_witness :
    dispatch "shop" "foo" .undefined 0 (fun _ => .ok .null) =
      { content := [⟨"text", "Error: Unknown tool: " ++ "foo"⟩], isError := some true } :=
  (dispatch_never_raises_and_unknown_tool "shop" "foo" .undefined 0 (fun _ => .ok .null)
    (by decide)).2

/-- C2 counterexample: at a concrete successful `get_orders` invocation the
returned envelope is NOT `{content: [{type: "text", text: JSON.stringify(X)}],
isError: false}` — the source omits the `isError` member on success and
pretty-prints with `JSON.stringify(X, null, 2)`. -/
theorem dispatch_success_envelope_counterexample :
    dispatch "shop" "get_orders" .undefined 0 (fun _ => .ok (.obj [("ok", .bool true)])) ≠
      { content := [⟨"text", stringify (.obj [("ok", .bool true)])⟩], isError := some false } ∧
    (dispatch "shop" "get_orders" .undefined 0 (fun _ => .ok (.obj [("ok", .bool true)]))).isError
      = none ∧
    stringifyPretty (.obj [("ok", .bool true)]) ≠ stringify (.obj [("ok", .bool true)]) := by
  refine ⟨?_, rfl, ?_⟩ <;> decide

/-- C2 (amended): every successful invocation returns
`{content: [{type: "text", text: JSON.stringify(AggregatedResult, null, 2)}]}`
with no `isError` member (absent, not `false`). -/
theorem dispatch_success_envelope
    (shopName name : String) (args : JSValue) (nowMs : ℕ) (exec : Executor) (v : JSValue)
    (h : callTool shopName name args nowMs exec = .ok v) :
    dispatch shopName name args nowMs exec =
      { content := [⟨"text", stringifyPretty v⟩], isError := none } := by
  simp [dispatch, h, successEnvelope]

/-- Witness for C2's amended theorem at a concrete successful invocation. -/
theorem dispatch_success_envelope_witness :
    dispatch "shop" "get_orders" .undefined 0 (fun _ => .ok (.obj [("ok", .bool true)])) =
      { content := [⟨"text", stringifyPretty (.obj [("ok", .bool true)])⟩], isError := none } :=
  dispatch_success_envelope "shop" "get_orders" .undefined 0
    (fun _ => .ok (.obj [("ok", .bool true)])) (.obj [("ok", .bool true)]) rfl

/-- C3 counterexample: a requested limit of `-5` is passed through as the
`first` variable — the code has no lower clamp, so the claimed
"first-variable is at least 1 for every requested limit" is false. -/
theorem getOrders_limit_counterexample :
    (getOrdersRequest (.obj [("limit", .num (-5))])).vars.getOpt "first" = .num (-5) ∧
    ¬ (1 : ℚ) ≤ -5 := by
  refine ⟨rfl, by norm_num⟩

/-- C3 (amended): the requested `get_orders` limit is capped above at 250
(e.g. 1000 becomes 250) and a falsy limit (0 or omitted) defaults to 50, but
there is no lower clamp: any nonzero limit at most 250 — including negative
ones — is passed through unchanged. -/
theorem getOrders_limit_clamp (q : ℚ) (hq : q > 250) (r : ℚ) (hr0 : r ≠ 0) (hr : r ≤ 250) :
    ((getOrdersRequest (.obj [("limit", .num 1000)])).vars.getOpt "first" = .num 250) ∧
    ((getOrdersRequest (.obj [("limit", .num 0)])).vars.getOpt "first" = .num 50) ∧
    ((getOrdersRequest .undefined).vars.getOpt "first" = .num 50) ∧
    ((getOrdersRequest (.obj [("limit", .num q)])).vars.getOpt "first" = .num 250) ∧
    ((getOrdersRequest (.obj [("limit", .num r)])).vars.getOpt "first" = .num r) := by
  refine ⟨rfl, rfl, rfl, ?_, ?_⟩
  · simp [getOrdersRequest, JSValue.getOpt, JSValue.lookupField, JSValue.orElse,
      JSValue.truthy, asNumber, ne_of_gt (lt_trans (by norm_num : (0:ℚ) < 250) hq),
      min_eq_right (le_of_lt hq)]
  · simp [getOrdersRequest, JSValue.getOpt, JSValue.lookupField, JSValue.orElse,
      JSValue.truthy, asNumber, hr0, min_eq_left hr]

/-- Witness for C3's amended theorem at limits 1000 and 7. -/
theorem getOrders_limit_clamp_witness :
    ((getOrdersRequest (.obj [("limit", .num 1000)])).vars.getOpt "first" = .num 250) ∧
    ((getOrdersRequest (.obj [("limit", .num 0)])).vars.getOpt "first" = .num 50) ∧
    ((getOrdersRequest .undefined).vars.getOpt "first" = .num 50) ∧
    ((getOrdersRequest (.obj [("limit", .num 1000)])).vars.getOpt "first" = .num 250) ∧
    ((getOrdersRequest (.obj [("limit", .num 7)])).vars.getOpt "first" = .num 7) :=
  getOrders_limit_clamp 1000 (by norm_num) 7 (by norm_num) (by norm_num)

theorem str_append_ne_empty (a b : String) (h : a ≠ "") : a ++ b ≠ "" := by
  intro he
  apply h
  have hd := congrArg String.data he
  simp only [String.data_append] at hd
  rcases List.append_eq_nil.mp hd with ⟨ha, _⟩
  exact String.ext (by simpa using ha)

theorem str_append_lit (a : String) {b c : String} (h : a ++ b = c) (s : String) :
    a ++ (b ++ s) = c ++ s := by
  rw [← String.append_assoc, h]

/-- C4: omitting any of `inventory_item_id`, `location_id`, `available` makes
`dispatch` return the error envelope naming the requirements; with all three
supplied (non-empty ids, numeric quantity) the composed mutation's variables
hold exactly one `quantities` entry with `name: "available"`, the supplied
quantity, and the fixed reason `"correction"`. -/
theorem updateInventory_required_and_mutation
    (args : JSValue) (item loc : String) (q : ℚ) (exec : Executor)
    (hitem : args.getOpt "inventory_item_id" = .str item) (hitem' : item ≠ "")
    (hloc : args.getOpt "location_id" = .str loc) (hloc' : loc ≠ "")
    (hav : args.getOpt "available" = .num q) :
    (handleUpdateInventory args exec =
      exec (updateInventoryRequest (.str item) (.str loc) (.num q))) ∧
    ((updateInventoryRequest (.str item) (.str loc) (.num q)).vars =
      .obj [("input", .obj [("reason", .str "correction"),
        ("quantities", .arr [.obj [("inventoryItemId", .str item), ("locationId", .str loc),
          ("name", .str "available"), ("quantity", .num q)]])])]) ∧
    (∀ (args2 : JSValue) (shopName : String) (nowMs : ℕ),
      (args2.getOpt "inventory_item_id" = .undefined ∨ args2.getOpt "location_id" = .undefined ∨
        args2.getOpt "available" = .undefined) →
      dispatch shopName "update_inventory" args2 nowMs exec =
        { content := [⟨"text",
            "Error: inventory_item_id, location_id, and available are required"⟩],
          isError := some true }) := by
  refine ⟨?_, rfl, ?_⟩
  · simp [handleUpdateInventory, hitem, hloc, hav, JSValue.truthy, isUndefined, hitem', hloc']
  · intro args2 shopName nowMs hmiss
    have : handleUpdateInventory args2 exec =
        .error "inventory_item_id, location_id, and available are required" := by
      rcases hmiss with hm | hm | hm <;>
        simp [handleUpdateInventory, hm, JSValue.truthy, isUndefined]
    simp [dispatch, callTool, this, errorEnvelope]

/-- Witness for C4 at concrete arguments. -/
theorem updateInventory_required_and_mutation_witness :
    (handleUpdateInventory
        (.obj [("inventory_item_id", .str "gid://I"), ("location_id", .str "gid://L"),
               ("available", .num 7)]) (fun r => .ok r.vars) =
      (fun r => Except.ok r.vars)
        (updateInventoryRequest (.str "gid://I") (.str "gid://L") (.num 7))) ∧
    ((updateInventoryRequest (.str "gid://I") (.str "gid://L") (.num 7)).vars =
      .obj [("input", .obj [("reason", .str "correction"),
        ("quantities", .arr [.obj [("inventoryItemId", .str "gid://I"),
          ("locationId", .str "gid://L"),
          ("name", .str "available"), ("quantity", .num 7)]])])]) ∧
    (∀ (args2 : JSValue) (shopName : String) (nowMs : ℕ),
      (args2.getOpt "inventory_item_id" = .undefined ∨ args2.getOpt "location_id" = .undefined ∨
        args2.getOpt "available" = .undefined) →
      dispatch shopName "update_inventory" args2 nowMs (fun r => .ok r.vars) =
        { content := [⟨"text",
            "Error: inventory_item_id, location_id, and available are required"⟩],
          isError := some true }) :=
  updateInventory_required_and_mutation
    (.obj [("inventory_item_id", .str "gid://I"), ("location_id", .str "gid://L"),
           ("available", .num 7)])
    "gid://I" "gid://L" 7 (fun r => .ok r.vars) rfl (by decide) rfl (by decide) rfl

/-- C8 counterexample: `compose` is NOT a pure function of the normalized
arguments alone — the date-windowed summaries embed the current clock, so the
same arguments at two different times yield different composed requests. -/
theorem compose_clock_counterexample :
    getFinancialSummaryRequest .undefined 1700000000000 ≠
      getFinancialSummaryRequest .undefined 1700086400000 ∧
    getSalesSummaryRequest .undefined 1700000000000 ≠
      getSalesSummaryRequest .undefined 1700086400000 := by
  constructor <;>
  · intro h
    exact absurd (congrArg (fun r => jsToString (r.vars.getOpt "query")) h) (by decide)

/-- C8 (amended): `compose` is a pure function of the normalized arguments and
the current clock.  Every operation except `get_financial_summary` and
`get_sales_summary` — including `get_product_analytics`, whose order scan
carries no date filter — composes identically whatever the clock reads, while
the two summary operations embed `toISOString(now − days·24h)` in their query
variable and therefore vary with the call time. -/
theorem compose_clock_dependence
    (shopName name : String) (args : JSValue) (exec : Executor) (n₁ n₂ : ℕ)
    (hf : name ≠ "get_financial_summary") (hs : name ≠ "get_sales_summary") :
    (dispatch shopName name args n₁ exec = dispatch shopName name args n₂ exec) ∧
    (∀ (a : JSValue) (n : ℕ), getFinancialSummaryRequest a n =
      { query := getFinancialSummaryQuery,
        vars := .obj [("query", .str ("created_at:>='" ++
          toISOString (minusDays n (asNumber ((a.getOpt "days").orElse (.num 30)))) ++ "'"))] }) ∧
    (∀ (a : JSValue) (n : ℕ), getSalesSummaryRequest a n =
      { query := getSalesSummaryQuery,
        vars := .obj [("query", .str ("created_at:>='" ++
          toISOString (minusDays n (asNumber ((a.getOpt "days").orElse (.num 30)))) ++ "'"))] }) := by
  refine ⟨?_, fun a n => rfl, fun a n => rfl⟩
  have h : callTool shopName name args n₁ exec = callTool shopName name args n₂ exec := by
    unfold callTool
    split_ifs <;> first | rfl | exact absurd ‹_› hf | exact absurd ‹_› hs
  simp only [dispatch, h]

/-- Witness for C8's amended theorem at `get_orders` and two distinct clocks. -/
theorem compose_clock_dependence_witness :
    (dispatch "shop" "get_orders" .undefined 0 (fun _ => .ok .null) =
      dispatch "shop" "get_orders" .undefined 99 (fun _ => .ok .null)) ∧
    (∀ (a : JSValue) (n : ℕ), getFinancialSummaryRequest a n =
      { query := getFinancialSummaryQuery,
        vars := .obj [("query", .str ("created_at:>='" ++
          toISOString (minusDays n (asNumber ((a.getOpt "days").orElse (.num 30)))) ++ "'"))] }) ∧
    (∀ (a : JSValue) (n : ℕ), getSalesSummaryRequest a n =
      { query := getSalesSummaryQuery,
        vars := .obj [("query", .str ("created_at:>='" ++
          toISOString (minusDays n (asNumber ((a.getOpt "days").orElse (.num 30)))) ++ "'"))] }) :=
  compose_clock_dependence "shop" "get_orders" .undefined (fun _ => .ok .null) 0 99
    (by decide) (by decide)

/-- C9: the `get_orders` server-side filter concatenates the status predicate
and the financial-status predicate with `" AND "`; `"any"` (or an absent
financial status) omits that predicate, and with both omitted the `query`
variable is `undefined` — no filter string is sent. -/
theorem getOrders_filter_string (s f : String)
    (hs : s ≠ "any") (hs0 : s ≠ "") (hf : f ≠ "any") (hf0 : f ≠ "") :
    ((getOrdersRequest
        (.obj [("status", .str s), ("financial_status", .str f)])).vars.getOpt "query"
      = .str ("status:" ++ s ++ " AND financial_status:" ++ f)) ∧
    ((getOrdersRequest
        (.obj [("status", .str "any"), ("financial_status", .str f)])).vars.getOpt "query"
      = .str ("financial_status:" ++ f)) ∧
    ((getOrdersRequest (.obj [("financial_status", .str f)])).vars.getOpt "query"
      = .str ("financial_status:" ++ f)) ∧
    ((getOrdersRequest (.obj [("status", .str s)])).vars.getOpt "query"
      = .str ("status:" ++ s)) ∧
    ((getOrdersRequest
        (.obj [("status", .str s), ("financial_status", .str "any")])).vars.getOpt "query"
      = .str ("status:" ++ s)) ∧
    ((getOrdersRequest (.obj [("status", .str "any")])).vars.getOpt "query" = .undefined) ∧
    ((getOrdersRequest .undefined).vars.getOpt "query" = .undefined) := by
  have hne : ∀ t : String, ("status:" ++ t) ≠ "" :=
    fun t => str_append_ne_empty "status:" t (by decide)
  have hne2 : ∀ t : String, ("financial_status:" ++ t) ≠ "" :=
    fun t => str_append_ne_empty "financial_status:" t (by decide)
  refine ⟨?_, ?_, ?_, ?_, ?_, rfl, rfl⟩ <;>
    simp [getOrdersRequest, JSValue.getOpt, JSValue.lookupField, JSValue.orElse,
      JSValue.truthy, strictEqStr, jsToString, hs, hs0, hf, hf0, hne, hne2,
      String.append_assoc, str_append_lit " AND " (by decide : (" AND " ++ "financial_status:" : String) = " AND financial_status:")]

/-- Witness for C9 at status `"open"` and financial status `"paid"`. -/
theorem getOrders_filter_string_witness :
    ((getOrdersRequest
        (.obj [("status", .str "open"), ("financial_status", .str "paid")])).vars.getOpt "query"
      = .str ("status:" ++ "open" ++ " AND financial_status:" ++ "paid")) ∧
    ((getOrdersRequest
        (.obj [("status", .str "any"), ("financial_status", .str "paid")])).vars.getOpt "query"
      = .str ("financial_status:" ++ "paid")) ∧
    ((getOrdersRequest (.obj [("financial_status", .str "paid")])).vars.getOpt "query"
      = .str ("financial_status:" ++ "paid")) ∧
    ((getOrdersRequest (.obj [("status", .str "open")])).vars.getOpt "query"
      = .str ("status:" ++ "open")) ∧
    ((getOrdersRequest
        (.obj [("status", .str "open"), ("financial_status", .str "any")])).vars.getOpt "query"
      = .str ("status:" ++ "open")) ∧
    ((getOrdersRequest (.obj [("status", .str "any")])).vars.getOpt "query" = .undefined) ∧
    ((getOrdersRequest .undefined).vars.getOpt "query" = .undefined) :=
  getOrders_filter_string "open" "paid" (by decide) (by decide) (by decide) (by decide)

/-- C10: the `update_inventory` required-argument check is asymmetric —
`available` is tested with strict `=== undefined`, so `available = 0` and
`available = null` are accepted and sent upstream as the `quantity`, while an
empty string for `inventory_item_id` or `location_id` is treated as missing
(falsy check) and yields the error.  The executor here echoes the composed
variables so the theorem exhibits exactly what is sent upstream. -/
theorem updateInventory_asymmetric_required_check :
    (handleUpdateInventory
        (.obj [("inventory_item_id", .str "I"), ("location_id", .str "L"),
               ("available", .num 0)]) (fun r => .ok r.vars) =
      .ok (.obj [("input", .obj [("reason", .str "correction"),
        ("quantities", .arr [.obj [("inventoryItemId", .str "I"), ("locationId", .str "L"),
          ("name", .str "available"), ("quantity", .num 0)]])])])) ∧
    (handleUpdateInventory
        (.obj [("inventory_item_id", .str "I"), ("location_id", .str "L"),
               ("available", .null)]) (fun r => .ok r.vars) =
      .ok (.obj [("input", .obj [("reason", .str "correction"),
        ("quantities", .arr [.obj [("inventoryItemId", .str "I"), ("locationId", .str "L"),
          ("name", .str "available"), ("quantity", .null)]])])])) ∧
    (handleUpdateInventory
        (.obj [("inventory_item_id", .str ""), ("location_id", .str "L"),
               ("available", .num 1)]) (fun r => .ok r.vars) =
      .error "inventory_item_id, location_id, and available are required") ∧
    (handleUpdateInventory
        (.obj [("inventory_item_id", .str "I"), ("location_id", .str ""),
               ("available", .num 1)]) (fun r => .ok r.vars) =
      .error "inventory_item_id, location_id, and available are required") := by
  exact ⟨rfl, rfl, rfl, rfl⟩

theorem orderAmount_fx (o : OrderFx) :
    orderAmount (orderFxEdge o) = .ok (parseDecimal o.amount) := rfl

theorem sumAmounts_fx_aux (os : List OrderFx) (a : ℚ) :
    List.foldlM (fun sum e => do pure (sum + (← orderAmount e))) a (os.map orderFxEdge)
      = .ok (a + totalOf os) := by
  induction os generalizing a with
  | nil => simp [totalOf]
  | cons o rest ih =>
    have hstep : ∀ s : ℚ,
        (do pure (s + (← orderAmount (orderFxEdge o))) : Except String ℚ) =
          .ok (s + parseDecimal o.amount) := fun s => rfl
    simp only [except_pure] at ih hstep
    simp only [List.map_cons, List.foldlM_cons, except_pure, hstep, except_bind_ok]
    rw [ih]
    simp [totalOf, add_assoc]

theorem sumAmounts_fx (os : List OrderFx) :
    sumAmounts (os.map orderFxEdge) = .ok (totalOf os) := by
  simpa using sumAmounts_fx_aux os 0

theorem firstCurrency_fx (os : List OrderFx)
    (hc : ∀ o, os.head? = some o → o.currency ≠ "") :
    firstCurrency (os.map orderFxEdge) = .ok (.str ((os.head?.map OrderFx.currency).getD "USD")) := by
  cases os with
  | nil => rfl
  | cons o rest =>
    have h := hc o rfl
    simp [firstCurrency, orderFxEdge, JSValue.get, JSValue.lookupField, JSValue.orElse,
      JSValue.truthy, h]

theorem byStatus_fx_aux (os : List OrderFx) (acc : List (String × ℚ)) :
    List.foldlM
      (fun acc e => do
        let node ← JSValue.get e "node"
        let st ← JSValue.get node "financialStatus"
        pure (bump acc (jsToString st)))
      acc (os.map orderFxEdge)
      = .ok (os.foldl (fun acc o => bump acc o.financialStatus) acc) := by
  induction os generalizing acc with
  | nil => simp
  | cons o rest ih =>
    have hstep : ∀ acc : List (String × ℚ),
        (do
          let node ← JSValue.get (orderFxEdge o) "node"
          let st ← JSValue.get node "financialStatus"
          pure (bump acc (jsToString st)) : Except String (List (String × ℚ))) =
          .ok (bump acc o.financialStatus) := fun acc => rfl
    simp only [except_pure] at ih hstep
    simp only [List.map_cons, List.foldlM_cons, except_pure, hstep, except_bind_ok]
    rw [ih]
    rfl

theorem byStatus_fx (os : List OrderFx) :
    byStatus (os.map orderFxEdge) = .ok (statusCountsOf os) := by
  simpa [byStatus, statusCountsOf] using byStatus_fx_aux os []

/-- C5: over the page of orders one upstream call returns,
`get_financial_summary` reports `total_revenue` as the sum of the parsed
decimal-string amounts, `average_order_value` as total revenue divided by the
order count (0 for an empty page), and `currency` from the first order,
defaulting to `"USD"` when there are no orders. -/
theorem financialSummary_aggregation (os : List OrderFx) (args : JSValue) (nowMs : ℕ)
    (hc : ∀ o, os.head? = some o → o.currency ≠ "") :
    handleGetFinancialSummary args nowMs (fun _ => .ok (ordersBody (os.map orderFxEdge))) =
      .ok (.obj [
        ("period_days", .num (asNumber ((args.getOpt "days").orElse (.num 30)))),
        ("total_orders", .num (os.length : ℚ)),
        ("total_revenue", .num (totalOf os)),
        ("currency", .str ((os.head?.map OrderFx.currency).getD "USD")),
        ("average_order_value",
          .num (if 0 < os.length then totalOf os / (os.length : ℚ) else 0)),
        ("by_status", .obj ((statusCountsOf os).map (fun p => (p.1, JSValue.num p.2))))]) := by
  unfold handleGetFinancialSummary
  by_cases hlen : 0 < os.length <;>
    simp [ordersBody, JSValue.get, JSValue.lookupField, JSValue.asArray,
      sumAmounts_fx, firstCurrency_fx os hc, byStatus_fx, hlen]

/-- Witness for C5 at a three-order page and, for the empty-page branch, the
general theorem applied to `[]`. -/
theorem financialSummary_aggregation_witness :
    handleGetFinancialSummary .undefined 0
        (fun _ => .ok (ordersBody
          ([⟨"10.00", "USD", "PAID"⟩, ⟨"20.50", "USD", "PAID"⟩,
            ⟨"5.00", "USD", "PENDING"⟩].map orderFxEdge))) =
      .ok (.obj [
        ("period_days", .num 30),
        ("total_orders", .num 3),
        ("total_revenue", .num (totalOf [⟨"10.00", "USD", "PAID"⟩, ⟨"20.50", "USD", "PAID"⟩,
          ⟨"5.00", "USD", "PENDING"⟩])),
        ("currency", .str "USD"),
        ("average_order_value", .num (totalOf [⟨"10.00", "USD", "PAID"⟩,
          ⟨"20.50", "USD", "PAID"⟩, ⟨"5.00", "USD", "PENDING"⟩] / 3)),
        ("by_status", .obj [("PAID", .num 2), ("PENDING", .num 1)])]) := by
  have := financialSummary_aggregation
    [⟨"10.00", "USD", "PAID"⟩, ⟨"20.50", "USD", "PAID"⟩, ⟨"5.00", "USD", "PENDING"⟩]
    .undefined 0 (by intro o h; cases h; decide)
  simpa [statusCountsOf, bump, asNumber, JSValue.getOpt, JSValue.orElse, JSValue.truthy,
    one_add_one_eq_two] using this

theorem analyticsLine_fx (pid : String) (st : ℚ × ℚ) (l : LineFx) :
    analyticsLine (.str pid) st (lineFxEdge l) =
      .ok (if matchesFx pid l then (st.1 + l.quantity, st.2 + lineRevenue l) else st) := by
  obtain ⟨q, r⟩ := st
  cases hl : l.product with
  | none =>
    simp [analyticsLine, lineFxEdge, productVal, hl, JSValue.get, JSValue.lookupField,
      JSValue.getOpt, eqb, matchesFx]
  | some p =>
    by_cases hp : p.1 = pid <;>
      simp [analyticsLine, lineFxEdge, productVal, hl, JSValue.get, JSValue.lookupField,
        JSValue.getOpt, eqb, matchesFx, hp, lineRevenue, jsParseFloat, asNumber]

theorem analyticsLines_fx (pid : String) (ls : List LineFx) (st : ℚ × ℚ) :
    List.foldlM (analyticsLine (.str pid)) st (ls.map lineFxEdge) =
      .ok (st.1 + soldL pid ls, st.2 + revL pid ls) := by
  induction ls generalizing st with
  | nil => simp [soldL, revL]
  | cons l rest ih =>
    simp only [List.map_cons, List.foldlM_cons, analyticsLine_fx, except_bind_ok]
    by_cases hm : matchesFx pid l <;>
      simp [hm, ih, soldL, revL, List.filter_cons, add_assoc]

theorem analyticsOrder_fx (pid : String) (st : ℚ × ℚ) (ls : List LineFx) :
    analyticsOrder (.str pid) st (analyticsOrderEdge ls) =
      .ok (st.1 + soldL pid ls, st.2 + revL pid ls) := by
  unfold analyticsOrder
  simp [analyticsOrderEdge, JSValue.get, JSValue.lookupField, JSValue.asArray,
    analyticsLines_fx]

theorem analyticsFold_fx (pid : String) (ordersLs : List (List LineFx)) (st : ℚ × ℚ) :
    List.foldlM (analyticsOrder (.str pid)) st (ordersLs.map analyticsOrderEdge) =
      .ok (st.1 + soldOf pid ordersLs, st.2 + revOf pid ordersLs) := by
  induction ordersLs generalizing st with
  | nil => simp [soldOf, revOf, soldL, revL]
  | cons ls rest ih =>
    simp only [List.map_cons, List.foldlM_cons, analyticsOrder_fx, except_bind_ok, ih]
    simp [soldOf, revOf, soldL, revL, List.filter_append, add_assoc]

/-- C7: for `get_product_analytics`, `turnover_rate` is
`(total quantity sold ÷ current stock) × 100` when the current stock is
positive and exactly 0 when the stock is 0, whatever quantity was sold — the
division branch is guarded by `totalInventory > 0`, so no division by zero
occurs. -/
theorem productAnalytics_turnover (pid title : String) (hpid : pid ≠ "")
    (stock : ℚ) (ordersLs : List (List LineFx)) (variants : List JSValue) :
    handleGetProductAnalytics (.obj [("product_id", .str pid)])
      (fun r => if r.query = productAnalyticsProductQuery
        then .ok (productBodyFx pid title stock variants)
        else .ok (ordersBody (ordersLs.map analyticsOrderEdge))) =
      .ok (.obj [
        ("product", .obj [("id", .str pid), ("title", .str title),
          ("total_inventory", .num stock), ("variants_count", .num (variants.length : ℚ))]),
        ("sales", .obj [("total_quantity_sold", .num (soldOf pid ordersLs)),
          ("total_revenue", .num (revOf pid ordersLs))]),
        ("inventory", .obj [("current_stock", .num stock),
          ("turnover_rate",
            .num (if stock > 0 then soldOf pid ordersLs / stock * 100 else 0))])]) ∧
    (stock = 0 →
      (if stock > 0 then soldOf pid ordersLs / stock * 100 else 0) = 0) := by
  constructor
  · unfold handleGetProductAnalytics
    simp [JSValue.getOpt, JSValue.lookupField, JSValue.truthy, hpid,
      productBodyFx, ordersBody, JSValue.get, JSValue.asArray,
      analyticsFold_fx, asNumber,
      (by decide : (productAnalyticsOrdersQuery = productAnalyticsProductQuery) = False)]
  · intro h
    simp [h]

/-- Witness for C7: a product with zero stock and 5 units sold still reports
`turnover_rate = 0`. -/
theorem productAnalytics_turnover_witness :
    handleGetProductAnalytics (.obj [("product_id", .str "gid://shopify/Product/1")])
      (fun r => if r.query = productAnalyticsProductQuery
        then .ok (productBodyFx "gid://shopify/Product/1" "Widget" 0 [])
        else .ok (ordersBody
          ([[⟨"Widget", 5, "10.00", some ("gid://shopify/Product/1", "Widget")⟩]].map
            analyticsOrderEdge))) =
      .ok (.obj [
        ("product", .obj [("id", .str "gid://shopify/Product/1"), ("title", .str "Widget"),
          ("total_inventory", .num 0), ("variants_count", .num ((0 : ℕ) : ℚ))]),
        ("sales", .obj [("total_quantity_sold",
            .num (soldOf "gid://shopify/Product/1"
              [[⟨"Widget", 5, "10.00", some ("gid://shopify/Product/1", "Widget")⟩]])),
          ("total_revenue", .num (revOf "gid://shopify/Product/1"
              [[⟨"Widget", 5, "10.00", some ("gid://shopify/Product/1", "Widget")⟩]]))]),
        ("inventory", .obj [("current_stock", .num 0), ("turnover_rate", .num 0)])]) := by
  have h := productAnalytics_turnover "gid://shopify/Product/1" "Widget" (by decide) 0
    [[⟨"Widget", 5, "10.00", some ("gid://shopify/Product/1", "Widget")⟩]] []
  have h2 := h.2 rfl
  simpa [h2] using h.1

theorem processLineItem_fx (ps : List (String × ProductEntry)) (l : LineFx) :
    processLineItem ps (lineFxEdge l) = .ok (lineStep ps l) := by
  cases hl : l.product with
  | none =>
    simp [processLineItem, lineFxEdge, productVal, hl, JSValue.get, JSValue.lookupField,
      JSValue.getOpt, JSValue.orElse, JSValue.truthy, jsToString, asNumber, jsParseFloat,
      lineStep, lineKey, lineTitle, lineRevenue]
  | some p =>
    by_cases h1 : p.1 = "" <;> by_cases h2 : p.2 = "" <;>
      simp [processLineItem, lineFxEdge, productVal, hl, JSValue.get, JSValue.lookupField,
        JSValue.getOpt, JSValue.orElse, JSValue.truthy, jsToString, asNumber, jsParseFloat,
        lineStep, lineKey, lineTitle, lineRevenue, h1, h2]

theorem processLineItems_fx (ls : List LineFx) (ps : List (String × ProductEntry)) :
    List.foldlM processLineItem ps (ls.map lineFxEdge) = .ok (linesAccum ls ps) := by
  induction ls generalizing ps with
  | nil => simp [linesAccum]
  | cons l rest ih =>
    simp only [List.map_cons, List.foldlM_cons, processLineItem_fx, except_bind_ok, ih]
    simp [linesAccum]

theorem processOrder_fx (st : List JSValue × List (String × ProductEntry))
    (o : SalesOrderFx) :
    processOrder st (salesOrderFxEdge o) =
      .ok (if (cidVal o).truthy then setAdd st.1 (cidVal o) else st.1,
           linesAccum o.lines st.2) := by
  obtain ⟨cs, ps⟩ := st
  cases hcid : o.customerId with
  | none =>
    simp [processOrder, salesOrderFxEdge, customerVal, hcid, cidVal, JSValue.get,
      JSValue.lookupField, JSValue.getOpt, JSValue.truthy, JSValue.asArray,
      processLineItems_fx]
  | some c =>
    by_cases hce : c = "" <;>
      simp [processOrder, salesOrderFxEdge, customerVal, hcid, cidVal, JSValue.get,
        JSValue.lookupField, JSValue.getOpt, JSValue.truthy, JSValue.asArray,
        processLineItems_fx, hce]

theorem salesFold_fx (os : List SalesOrderFx)
    (st : List JSValue × List (String × ProductEntry)) :
    List.foldlM processOrder st (os.map salesOrderFxEdge) =
      .ok (os.foldl (fun cs o => if (cidVal o).truthy then setAdd cs (cidVal o) else cs) st.1,
           os.foldl (fun ps o => linesAccum o.lines ps) st.2) := by
  induction os generalizing st with
  | nil => simp
  | cons o rest ih =>
    simp only [List.map_cons, List.foldlM_cons, processOrder_fx, except_bind_ok, ih]
    simp

theorem salesOrderAmount_fx (o : SalesOrderFx) :
    orderAmount (salesOrderFxEdge o) = .ok (parseDecimal o.amount) := rfl

theorem sumAmounts_sales_fx_aux (os : List SalesOrderFx) (a : ℚ) :
    List.foldlM (fun sum e => do pure (sum + (← orderAmount e))) a (os.map salesOrderFxEdge)
      = .ok (a + salesTotalOf os) := by
  induction os generalizing a with
  | nil => simp [salesTotalOf]
  | cons o rest ih =>
    have hstep : ∀ s : ℚ,
        (do pure (s + (← orderAmount (salesOrderFxEdge o))) : Except String ℚ) =
          .ok (s + parseDecimal o.amount) := fun s => rfl
    simp only [except_pure] at ih hstep
    simp only [List.map_cons, List.foldlM_cons, except_pure, hstep, except_bind_ok]
    rw [ih]
    simp [salesTotalOf, add_assoc]

theorem sumAmounts_sales_fx (os : List SalesOrderFx) :
    sumAmounts (os.map salesOrderFxEdge) = .ok (salesTotalOf os) := by
  simpa using sumAmounts_sales_fx_aux os 0

theorem firstCurrency_sales_fx (os : List SalesOrderFx)
    (hc : ∀ o, os.head? = some o → o.currency ≠ "") :
    firstCurrency (os.map salesOrderFxEdge) =
      .ok (.str ((os.head?.map SalesOrderFx.currency).getD "USD")) := by
  cases os with
  | nil => rfl
  | cons o rest =>
    have h := hc o rfl
    simp [firstCurrency, salesOrderFxEdge, JSValue.get, JSValue.lookupField, JSValue.orElse,
      JSValue.truthy, h]

theorem findEntry_accumUpdate (ps : List (String × ProductEntry)) (k' : String)
    (t : JSValue) (q r : ℚ) (k : String) :
    findEntry (accumUpdate ps k' t q r) k =
      if k' = k then
        match findEntry ps k with
        | some e => some ⟨e.title, e.quantity + q, e.revenue + r⟩
        | none => some ⟨t, q, r⟩
      else findEntry ps k := by
  induction ps with
  | nil =>
    by_cases h : k' = k <;> simp [accumUpdate, findEntry, h]
  | cons p rest ih =>
    obtain ⟨k₀, e₀⟩ := p
    by_cases h1 : k₀ = k' <;> by_cases h2 : k₀ = k <;> by_cases h3 : k' = k <;>
      simp_all [accumUpdate, findEntry, ih]

theorem findEntry_linesAccum (ls : List LineFx) (ps : List (String × ProductEntry))
    (k : String) :
    findEntry (linesAccum ls ps) k =
      match findEntry ps k with
      | some e => some ⟨e.title, e.quantity + qtySum ls k, e.revenue + revSum ls k⟩
      | none =>
        match ls.filter (fun l => lineKey l = k) with
        | [] => none
        | l₀ :: _ => some ⟨lineTitle l₀, qtySum ls k, revSum ls k⟩ := by
  induction ls generalizing ps with
  | nil =>
    cases h : findEntry ps k with
    | none => simp [linesAccum, h]
    | some e => simp [linesAccum, qtySum, revSum, h]
  | cons l rest ih =>
    have hstep : linesAccum (l :: rest) ps = linesAccum rest (lineStep ps l) := rfl
    rw [hstep, ih, lineStep, findEntry_accumUpdate]
    by_cases hk : lineKey l = k
    · cases hfe : findEntry ps k <;>
        simp [hk, hfe, qtySum, revSum, List.filter_cons, add_assoc]
    · cases hfe : findEntry ps k <;>
        simp [hk, hfe, qtySum, revSum, List.filter_cons]

theorem salesAccum_eq_flat (os : List SalesOrderFx) :
    salesAccum os = linesAccum (flatLines os) [] := by
  suffices h : ∀ ps, os.foldl (fun ps o => linesAccum o.lines ps) ps =
      linesAccum (flatLines os) ps by
    simpa [salesAccum] using h []
  induction os with
  | nil => intro ps; simp [flatLines, linesAccum]
  | cons o rest ih =>
    intro ps
    simp only [List.foldl_cons, ih, flatLines, List.map_cons, List.flatten_cons]
    simp [linesAccum, List.foldl_append]

/-- On the string values the customer set holds, `eqb` agrees with
equality, so `setAdd` has plain set semantics. -/
theorem setAdd_mem_str (s : List JSValue) (hstr : ∀ v ∈ s, ∃ c : String, v = .str c)
    (w : String) (v : JSValue) :
    v ∈ setAdd s (.str w) ↔ v ∈ s ∨ v = .str w := by
  unfold setAdd
  split
  · next h =>
    constructor
    · exact fun hv => Or.inl hv
    · rintro (hv | rfl)
      · exact hv
      · rcases List.any_eq_true.mp h with ⟨x, hx, hxw⟩
        rcases hstr x hx with ⟨c, rfl⟩
        have : c = w := by simpa [eqb] using hxw
        subst this
        exact hx
  · simp [List.mem_append]

theorem setAdd_pairwise (s : List JSValue) (w : JSValue)
    (h : List.Pairwise (fun a b => eqb a b = false) s) :
    List.Pairwise (fun a b => eqb a b = false) (setAdd s w) := by
  unfold setAdd
  split
  · exact h
  · next hany =>
    rw [List.pairwise_append]
    refine ⟨h, List.pairwise_singleton _ _, ?_⟩
    intro a ha b hb
    simp only [List.mem_singleton] at hb
    subst hb
    simpa using (List.any_eq_false.mp (by simpa using hany)) a ha

theorem setAdd_str (s : List JSValue) (hstr : ∀ v ∈ s, ∃ c : String, v = .str c)
    (w : String) : ∀ v ∈ setAdd s (.str w), ∃ c : String, v = .str c := by
  intro v hv
  unfold setAdd at hv
  split at hv
  · exact hstr v hv
  · rcases List.mem_append.mp hv with h | h
    · exact hstr v h
    · exact ⟨w, by simpa using h⟩

/-- The truthy customer-id of an order is a non-empty string id. -/
theorem cidVal_truthy (o : SalesOrderFx) (h : (cidVal o).truthy = true) :
    ∃ c : String, cidVal o = .str c ∧ c ≠ "" := by
  cases hc : o.customerId with
  | none => rw [cidVal, hc] at h; simp [JSValue.truthy] at h
  | some c =>
    rw [cidVal, hc] at h ⊢
    exact ⟨c, rfl, by simpa [JSValue.truthy] using h⟩

/-- Invariant-carrying characterization of the customer-set fold. -/
theorem customersFold_spec (os : List SalesOrderFx) (cs : List JSValue)
    (hstr : ∀ v ∈ cs, ∃ c : String, v = .str c)
    (hpw : List.Pairwise (fun a b => eqb a b = false) cs) :
    (∀ v ∈ os.foldl
        (fun cs o => if (cidVal o).truthy then setAdd cs (cidVal o) else cs) cs,
      ∃ c : String, v = .str c) ∧
    List.Pairwise (fun a b => eqb a b = false)
      (os.foldl (fun cs o => if (cidVal o).truthy then setAdd cs (cidVal o) else cs) cs) ∧
    (∀ v, v ∈ os.foldl
        (fun cs o => if (cidVal o).truthy then setAdd cs (cidVal o) else cs) cs ↔
      v ∈ cs ∨ v ∈ (os.map cidVal).filter JSValue.truthy) := by
  induction os generalizing cs with
  | nil => exact ⟨hstr, hpw, fun v => by simp⟩
  | cons o rest ih =>
    by_cases ht : (cidVal o).truthy
    · rcases cidVal_truthy o ht with ⟨c, hc, _⟩
      have hstr' : ∀ v ∈ setAdd cs (cidVal o), ∃ d : String, v = .str d := by
        rw [hc]; exact setAdd_str cs hstr c
      have hpw' := setAdd_pairwise cs (cidVal o) hpw
      rcases ih (setAdd cs (cidVal o)) hstr' hpw' with ⟨h1, h2, h3⟩
      refine ⟨by simpa [ht] using h1, by simpa [ht] using h2, ?_⟩
      intro v
      have hmem : v ∈ setAdd cs (cidVal o) ↔ v ∈ cs ∨ v = cidVal o := by
        rw [hc]; exact setAdd_mem_str cs hstr c v
      simp only [List.foldl_cons, ht, if_pos, List.map_cons, List.filter_cons, ht,
        List.mem_cons]
      rw [h3 v, hmem]
      tauto
    · rcases ih cs hstr hpw with ⟨h1, h2, h3⟩
      have hb : (cidVal o).truthy = false := by simpa using ht
      refine ⟨by simpa [hb] using h1, by simpa [hb] using h2, ?_⟩
      intro v
      rw [List.foldl_cons]
      simp only [hb, Bool.false_eq_true, if_false, List.map_cons, List.filter_cons]
      simp [hb, h3 v]

theorem salesLe_trans (a b c : String × ProductEntry) :
    decide (b.2.revenue ≤ a.2.revenue) → decide (c.2.revenue ≤ b.2.revenue) →
      decide (c.2.revenue ≤ a.2.revenue) := by
  simp only [decide_eq_true_eq]
  exact fun h1 h2 => le_trans h2 h1

theorem salesLe_total (a b : String × ProductEntry) :
    decide (b.2.revenue ≤ a.2.revenue) || decide (a.2.revenue ≤ b.2.revenue) := by
  simp only [Bool.or_eq_true, decide_eq_true_eq]
  exact (le_total _ _).symm

theorem topProducts_sorted (ps : List (String × ProductEntry)) :
    List.Pairwise (fun a b : String × ProductEntry => b.2.revenue ≤ a.2.revenue)
      ((ps.mergeSort (fun a b => b.2.revenue ≤ a.2.revenue)).take 10) := by
  have h := List.sorted_mergeSort salesLe_trans salesLe_total ps
  have h2 := h.sublist (List.take_sublist 10 _)
  exact h2.imp (fun hab => by simpa using hab)

theorem mergeSort_stable_pairs (ps : List (String × ProductEntry))
    (a b : String × ProductEntry) (hsub : [a, b].Sublist ps)
    (hle : b.2.revenue ≤ a.2.revenue) :
    [a, b].Sublist (ps.mergeSort (fun a b => b.2.revenue ≤ a.2.revenue)) :=
  List.pair_sublist_mergeSort salesLe_trans salesLe_total (by simpa using hle) hsub

/-- C6 (amended): over the page of orders one upstream call returns,
`get_sales_summary` accumulates per-line-item quantity and revenue into an
insertion-ordered mapping keyed by the product identifier, falling back to the
FIXED key `"unknown"` (not the line-item title — only the displayed title
falls back to the line-item title) when the line item has no linked product;
`top_products` is the first 10 entries of that mapping stably sorted by
descending revenue (ties keep encounter order), and `unique_customers` counts
only distinct, truthy (hence non-null) customer identifiers via a set. -/
theorem salesSummary_aggregation (os : List SalesOrderFx) (args : JSValue) (nowMs : ℕ)
    (hc : ∀ o, os.head? = some o → o.currency ≠ "") :
    (handleGetSalesSummary args nowMs
        (fun _ => .ok (ordersBody (os.map salesOrderFxEdge))) =
      .ok (.obj [
        ("period_days", .num (asNumber ((args.getOpt "days").orElse (.num 30)))),
        ("total_orders", .num (os.length : ℚ)),
        ("total_revenue", .num (salesTotalOf os)),
        ("currency", .str ((os.head?.map SalesOrderFx.currency).getD "USD")),
        ("unique_customers", .num ((customersOf os).length : ℚ)),
        ("average_order_value",
          .num (if 0 < os.length then salesTotalOf os / (os.length : ℚ) else 0)),
        ("top_products", .arr (topProducts (salesAccum os)))])) ∧
    (topProducts (salesAccum os) =
      (((salesAccum os).mergeSort (fun a b => b.2.revenue ≤ a.2.revenue)).take 10).map
        (fun p => .obj [("product_id", .str p.1), ("title", p.2.title),
          ("quantity_sold", .num p.2.quantity), ("revenue", .num p.2.revenue)])) ∧
    List.Pairwise (fun a b : String × ProductEntry => b.2.revenue ≤ a.2.revenue)
      (((salesAccum os).mergeSort (fun a b => b.2.revenue ≤ a.2.revenue)).take 10) ∧
    (∀ a b : String × ProductEntry, [a, b].Sublist (salesAccum os) →
      b.2.revenue ≤ a.2.revenue →
      [a, b].Sublist ((salesAccum os).mergeSort (fun a b => b.2.revenue ≤ a.2.revenue))) ∧
    (∀ k, findEntry (salesAccum os) k =
      match (flatLines os).filter (fun l => lineKey l = k) with
      | [] => none
      | l₀ :: _ =>
        some ⟨lineTitle l₀, qtySum (flatLines os) k, revSum (flatLines os) k⟩) ∧
    List.Pairwise (fun a b => eqb a b = false) (customersOf os) ∧
    (∀ v ∈ customersOf os, ∃ c : String, v = .str c) ∧
    (∀ v, v ∈ customersOf os ↔ v ∈ (os.map cidVal).filter JSValue.truthy) := by
  rcases customersFold_spec os [] (by simp) (by simp) with ⟨hs1, hs2, hs3⟩
  refine ⟨?_, rfl, topProducts_sorted _, mergeSort_stable_pairs _, ?_, hs2, hs1, ?_⟩
  · unfold handleGetSalesSummary
    by_cases hlen : 0 < os.length <;>
      simp [ordersBody, JSValue.get, JSValue.lookupField, JSValue.asArray, salesFold_fx,
        sumAmounts_sales_fx, firstCurrency_sales_fx os hc, hlen, customersOf, salesAccum]
  · intro k
    rw [salesAccum_eq_flat, findEntry_linesAccum]
    simp [findEntry]
  · intro v
    simpa using hs3 v

/-- Witness for C6 at the spec's fixture: two orders whose line items both
reference product P with quantities 2 and 3 at unit price 10 (plus a
product-less line and a null customer), so the accumulated entry for P has
quantity 5 and revenue 50. -/
theorem salesSummary_aggregation_witness :
    (handleGetSalesSummary .undefined 0
        (fun _ => .ok (ordersBody
          ([⟨"20.00", "USD", some "c1", [⟨"A", 2, "10.00", some ("P", "Prod P")⟩]⟩,
            ⟨"30.00", "USD", none, [⟨"B", 3, "10.00", some ("P", "Prod P")⟩]⟩].map
            salesOrderFxEdge))) =
      .ok (.obj [
        ("period_days", .num (asNumber ((JSValue.getOpt .undefined "days").orElse (.num 30)))),
        ("total_orders", .num ((2 : ℕ) : ℚ)),
        ("total_revenue", .num (salesTotalOf
          [⟨"20.00", "USD", some "c1", [⟨"A", 2, "10.00", some ("P", "Prod P")⟩]⟩,
           ⟨"30.00", "USD", none, [⟨"B", 3, "10.00", some ("P", "Prod P")⟩]⟩])),
        ("currency", .str "USD"),
        ("unique_customers", .num ((customersOf
          [⟨"20.00", "USD", some "c1", [⟨"A", 2, "10.00", some ("P", "Prod P")⟩]⟩,
           ⟨"30.00", "USD", none, [⟨"B", 3, "10.00", some ("P", "Prod P")⟩]⟩]).length : ℚ)),
        ("average_order_value", .num (salesTotalOf
          [⟨"20.00", "USD", some "c1", [⟨"A", 2, "10.00", some ("P", "Prod P")⟩]⟩,
           ⟨"30.00", "USD", none, [⟨"B", 3, "10.00", some ("P", "Prod P")⟩]⟩] / ((2 : ℕ) : ℚ))),
        ("top_products", .arr (topProducts (salesAccum
          [⟨"20.00", "USD", some "c1", [⟨"A", 2, "10.00", some ("P", "Prod P")⟩]⟩,
           ⟨"30.00", "USD", none, [⟨"B", 3, "10.00", some ("P", "Prod P")⟩]⟩])))])) ∧
    findEntry (salesAccum
        [⟨"20.00", "USD", some "c1", [⟨"A", 2, "10.00", some ("P", "Prod P")⟩]⟩,
         ⟨"30.00", "USD", none, [⟨"B", 3, "10.00", some ("P", "Prod P")⟩]⟩]) "P" =
      some ⟨.str "Prod P", 5, 50⟩ ∧
    (customersOf
        [⟨"20.00", "USD", some "c1", [⟨"A", 2, "10.00", some ("P", "Prod P")⟩]⟩,
         ⟨"30.00", "USD", none, [⟨"B", 3, "10.00", some ("P", "Prod P")⟩]⟩]).length = 1 := by
  have h := salesSummary_aggregation
    [⟨"20.00", "USD", some "c1", [⟨"A", 2, "10.00", some ("P", "Prod P")⟩]⟩,
     ⟨"30.00", "USD", none, [⟨"B", 3, "10.00", some ("P", "Prod P")⟩]⟩]
    .undefined 0 (by intro o ho; cases ho; decide)
  refine ⟨by simpa [if_pos] using h.1, ?_, ?_⟩
  · have h5 := h.2.2.2.2.1 "P"
    simp only [flatLines, List.map_cons, List.map_nil, List.flatten] at h5
    norm_num [qtySum, revSum, lineKey, lineTitle, List.filter, lineRevenue, parseDecimal,
      parseDigits,
      show ('0'.isDigit = true) from by decide, show ('1'.isDigit = true) from by decide,
      show ('.'.isDigit = false) from by decide,
      show ('1'.toNat - '0'.toNat = 1) from by decide,
      show ('0'.toNat - '0'.toNat = 0) from by decide,
      show ¬('1' = '-') from by decide, show ¬('1' = '+') from by decide,
      show ¬('1' = '.') from by decide,
      show decide ("P" = "") = false from by decide,
      show decide ("unknown" = "P") = false from by decide,
      show decide ("P" = "P") = true from by decide] at h5
    exact h5
  · rfl

/-- C6 counterexample: for a page whose two line items have no linked product
and distinct titles "X" and "Y", the code accumulates BOTH under the single
fixed key `"unknown"` (one entry, displayed title "X", quantity 2, revenue
12), whereas the claim's keying — product identifier falling back to the
line-item title — would keep two entries keyed "X" and "Y".  The aggregation
is therefore not keyed as the claim states. -/
theorem salesSummary_keying_counterexample :
    (salesAccum [⟨"12.00", "USD", some "c1",
        [⟨"X", 1, "5", none⟩, ⟨"Y", 1, "7", none⟩]⟩]).map Prod.fst = ["unknown"] ∧
    (specSalesAccum [⟨"12.00", "USD", some "c1",
        [⟨"X", 1, "5", none⟩, ⟨"Y", 1, "7", none⟩]⟩]).map Prod.fst = ["X", "Y"] ∧
    (["unknown"] : List String) ≠ ["X", "Y"] ∧
    (handleGetSalesSummary .undefined 0 (fun _ => .ok (ordersBody
        ([⟨"12.00", "USD", some "c1",
          [⟨"X", 1, "5", none⟩, ⟨"Y", 1, "7", none⟩]⟩].map salesOrderFxEdge)))).map
      (fun s => s.getOpt "top_products") =
      .ok (.arr [.obj [("product_id", .str "unknown"), ("title", .str "X"),
        ("quantity_sold", .num 2), ("revenue", .num 12)]]) := by
  refine ⟨rfl, rfl, by decide, ?_⟩
  have hacc : List.foldl (fun ps o => linesAccum o.lines ps)
      ([] : List (String × ProductEntry))
      ([⟨"12.00", "USD", some "c1", [⟨"X", 1, "5", none⟩, ⟨"Y", 1, "7", none⟩]⟩] :
        List SalesOrderFx) =
      [("unknown", ⟨.str "X", 2, 12⟩)] := by
    norm_num [linesAccum, lineStep, accumUpdate, lineKey, lineTitle, lineRevenue,
      parseDecimal, parseDigits, List.foldl,
      show ('5'.isDigit = true) from by decide, show ('7'.isDigit = true) from by decide,
      show ('5'.toNat - '0'.toNat = 5) from by decide,
      show ('7'.toNat - '0'.toNat = 7) from by decide,
      show ¬('5' = '-') from by decide, show ¬('5' = '+') from by decide,
      show ¬('5' = '.') from by decide,
      show ¬('7' = '-') from by decide, show ¬('7' = '+') from by decide,
      show ¬('7' = '.') from by decide]
  have hfold := salesFold_fx
    [⟨"12.00", "USD", some "c1", [⟨"X", 1, "5", none⟩, ⟨"Y", 1, "7", none⟩]⟩] ([], [])
  have hsum := sumAmounts_sales_fx
    [⟨"12.00", "USD", some "c1", [⟨"X", 1, "5", none⟩, ⟨"Y", 1, "7", none⟩]⟩]
  have hcur := firstCurrency_sales_fx
    [⟨"12.00", "USD", some "c1", [⟨"X", 1, "5", none⟩, ⟨"Y", 1, "7", none⟩]⟩]
    (by intro o h; cases h; decide)
  simp only [List.map_cons, List.map_nil] at hfold hsum hcur
  unfold handleGetSalesSummary
  simp [ordersBody, JSValue.get, JSValue.lookupField, JSValue.asArray, hfold, hsum, hcur,
    hacc, topProducts, List.mergeSort_singleton, JSValue.getOpt, Except.map]

end McpShopify
